import Mathlib

/-!
Verification of the fruit-voting web service (`src/app.py`).

The service has three routes: `/` (`hello`) renders an HTML page, and
`/vote/<product_name>` (`vote_item`) atomically increments a counter in an
external Redis store and fires a best-effort Telegram notification, and
`/list` (`get_all`) enumerates all counters.

The embedding models the Redis store as an association list from string
keys to string values (Redis stores decimal-integer strings), a connection
that is either up or down, and each route handler as a pure function from
configuration, connection state and request to a response.
-/

/-- Little-endian value of a list of decimal digits:
`[d0, d1, d2]` stands for `d0 + 10*d1 + 100*d2`. -/
def valOfDigitsRev : List Nat → Nat
  | [] => 0
  | d :: rest => d + 10 * valOfDigitsRev rest

/-- Numeric value of an ASCII digit character. -/
def digitVal (c : Char) : Nat := c.toNat - 48

/-- Parse a big-endian list of characters as a nonempty run of decimal
digits; `none` if empty or if any character is not a digit. -/
def parseDigitsList (l : List Char) : Option Nat :=
  if l = [] then none
  else if l.all Char.isDigit then some (valOfDigitsRev ((l.map digitVal).reverse))
  else none

/-- Little-endian decimal digits of `n`, with explicit fuel (the fuel is
always instantiated with `n` itself, which suffices since `n / 10 < n`). -/
def natDigitsRevAux : Nat → Nat → List Nat
  | _, 0 => []
  | 0, _ + 1 => []
  | fuel + 1, n + 1 => ((n + 1) % 10) :: natDigitsRevAux fuel ((n + 1) / 10)

/-- Big-endian decimal representation of a natural number, as a string. -/
def renderNat (n : Nat) : String :=
  if n = 0 then "0"
  else String.mk (((natDigitsRevAux n n).map Nat.digitChar).reverse)

/-- Decimal representation of an integer, as stored by Redis. -/
def renderInt (i : Int) : String :=
  if i < 0 then "-" ++ renderNat i.natAbs else renderNat i.toNat

/-- Modelled from the spec: the store's values are decimal-integer strings;
this parses one (an optional minus sign followed by a nonempty digit run). -/
def parseDecimal (s : String) : Option Int :=
  match s.data with
  | [] => none
  | c :: rest =>
    if c = '-' then (parseDigitsList rest).map fun d => -(d : Int)
    else (parseDigitsList (c :: rest)).map fun d => (d : Int)

/-- Models CPython `int()` stripping of surrounding whitespace. -/
def pyStrip (l : List Char) : List Char :=
  ((l.dropWhile Char.isWhitespace).reverse.dropWhile Char.isWhitespace).reverse

/-- Models CPython `int(s)` on a string: surrounding whitespace is stripped,
an optional sign is allowed, then a nonempty run of ASCII decimal digits
(underscore-grouped and non-ASCII digit forms, which this system never
produces, are omitted); `none` models the `ValueError` raise. -/
def pythonInt (s : String) : Option Int :=
  match pyStrip s.data with
  | [] => none
  | c :: rest =>
    if c = '+' then (parseDigitsList rest).map fun d => (d : Int)
    else if c = '-' then (parseDigitsList rest).map fun d => -(d : Int)
    else (parseDigitsList (c :: rest)).map fun d => (d : Int)

/-- Process configuration, read once at startup from the environment
(`APP_VERSION`, `TELEGRAM_TOKEN`, `TELEGRAM_CHAT_ID`, `REDIS_HOST`,
`HOSTNAME`), modelled as an immutable record. -/
structure Config where
  appVersion : String
  telegramToken : String
  telegramChatId : String
  redisHost : String
  hostname : String
  deriving DecidableEq

/-- Outcome of the outbound HTTP notification attempt: delivered with some
status code (any code, non-2xx included), a network error, or a timeout. -/
inductive NetOutcome where
  | delivered (statusCode : Nat)
  | netError (message : String)
  | timedOut
  deriving DecidableEq

/-- The JSON payload posted to the Telegram API: `{chat_id, text}`. -/
structure TelegramPayload where
  chat_id : String
  text : String
  deriving DecidableEq

/-- The Telegram endpoint URL, parameterized by the bot token. -/
def telegram_url (token : String) : String :=
  "https://api.telegram.org/bot" ++ token ++ "/sendMessage"

/-- Models `requests.post(url, json=payload, timeout=1)`: a response with
any status code returns normally (`requests.post` does not raise on a
non-2xx status); a network error or a timeout raises. -/
def attemptPost (url : String) (payload : TelegramPayload) (outcome : NetOutcome) : Except String Unit :=
  match payload, outcome with
  | _, NetOutcome.delivered _ => Except.ok ()
  | _, NetOutcome.netError e => Except.error e
  | _, NetOutcome.timedOut => Except.error ("timed out connecting to " ++ url)

/-- `send_telegram_notification(message)` from `src/app.py`: a no-op unless
both the token and the chat id are nonempty (Python truthiness of the two
strings); otherwise it posts `{chat_id, text}` with the message prefixed by
the bracketed version tag, and the `try/except: pass` swallows any failure
of the post. The returned value is the payload the function attempted to
post (`none` when no attempt was made). -/
def send_telegram_notification (cfg : Config) (outcome : NetOutcome) (message : String) : Option TelegramPayload :=
  if cfg.telegramToken ≠ "" ∧ cfg.telegramChatId ≠ "" then
    let url := telegram_url cfg.telegramToken
    let payload : TelegramPayload :=
      { chat_id := cfg.telegramChatId
        text := "[" ++ cfg.appVersion ++ "] " ++ message }
    match attemptPost url payload outcome with
    | Except.ok _ => some payload
    | Except.error _ => some payload
  else none

/-- The external key-value store's contents: an association list from
string keys to string values (Redis with `decode_responses=True`). -/
abbrev Store := List (String × String)

def Store.lookup : Store → String → Option String
  | [], _ => none
  | (k, v) :: rest, key => if k = key then some v else Store.lookup rest key

def Store.set : Store → String → String → Store
  | [], key, val => [(key, val)]
  | (k, v) :: rest, key, val =>
    if k = key then (k, val) :: rest else (k, v) :: Store.set rest key val

/-- Modelled from the spec: `list_keys()` returns all counter keys
currently present (`redis_client.keys('*')`). -/
def Store.keysAll (st : Store) : List String := st.map Prod.fst

/-- Modelled from the spec: `increment(key)` atomically adds 1 to the
counter named `key`, creating it at 0 first if absent, and returns the new
value; values are decimal-integer strings, and a value that is not one
fails with a store error (`redis_client.incr(key)`). -/
def Store.incr (st : Store) (key : String) : Except String (Store × Int) :=
  match Store.lookup st key with
  | none => Except.ok (Store.set st key (renderInt 1), 1)
  | some v =>
    match parseDecimal v with
    | some n => Except.ok (Store.set st key (renderInt (n + 1)), n + 1)
    | none => Except.error "value is not an integer or out of range"

/-- The connection to the store: either up, with the store's contents, or
down with the textual description of the `StoreUnavailable` error every
operation raises. -/
inductive Conn where
  | up (st : Store)
  | down (err : String)
  deriving DecidableEq

def Conn.incr : Conn → String → Except String (Conn × Int)
  | Conn.down e, _ => Except.error e
  | Conn.up st, key =>
    match Store.incr st key with
    | Except.ok (st2, n) => Except.ok (Conn.up st2, n)
    | Except.error e => Except.error e

def Conn.keysAll : Conn → Except String (List String)
  | Conn.down e => Except.error e
  | Conn.up st => Except.ok (Store.keysAll st)

def Conn.get : Conn → String → Except String (Option String)
  | Conn.down e, _ => Except.error e
  | Conn.up st, key => Except.ok (Store.lookup st key)

/-- JSON body returned by the `/vote/<product_name>` route: either
`{status, current_count, version}` or `{error}`. -/
inductive VoteBody where
  | success (status : String) (current_count : Int) (version : String)
  | failure (error : String)
  deriving DecidableEq

/-- JSON body returned by the `/list` route: either `{data, version}` or
`{error}`. -/
inductive ListBody where
  | payload (data : List (String × Int)) (version : String)
  | failure (error : String)
  deriving DecidableEq

/-- Full observable result of a `/vote/<product_name>` request: HTTP status,
JSON body, resulting store connection, the notification message composed on
the success path, and the Telegram payload the notifier attempted to post. -/
structure VoteResult where
  httpStatus : Nat
  body : VoteBody
  conn : Conn
  message : Option String
  notified : Option TelegramPayload
  deriving DecidableEq

/-- Full observable result of a `/list` request. -/
structure ListResult where
  httpStatus : Nat
  body : ListBody
  conn : Conn
  deriving DecidableEq

/-- The notification message composed in `vote_item`:
`f"🔥 {product_name} 獲得一票！目前總票數: {new_count}"`. -/
def vote_message (product_name : String) (new_count : Int) : String :=
  "🔥 " ++ product_name ++ " 獲得一票！目前總票數: " ++ renderInt new_count

/-- The `/vote/<product_name>` route (`vote_item` in `src/app.py`):
`incr` the counter, send the Telegram notification, and answer 200 with
`{status: "success", current_count, version}`; any store exception is
caught and answered as 500 `{error: str(error_detail)}`. -/
def vote_item (cfg : Config) (outcome : NetOutcome) (conn : Conn) (product_name : String) : VoteResult :=
  match Conn.incr conn product_name with
  | Except.ok (conn2, new_count) =>
    let msg := vote_message product_name new_count
    { httpStatus := 200
      body := VoteBody.success "success" new_count cfg.appVersion
      conn := conn2
      message := some msg
      notified := send_telegram_notification cfg outcome msg }
  | Except.error error_detail =>
    { httpStatus := 500
      body := VoteBody.failure error_detail
      conn := conn
      message := none
      notified := none }

/-- Models `int(redis_client.get(key) or 0)` on the fetched value: a
missing value (`None`) or an empty string is falsy, so `int(0) = 0`;
otherwise `int` parses the string and raises `ValueError` on failure. -/
def intOfGet (v : Option String) : Except String Int :=
  match v with
  | none => Except.ok 0
  | some s =>
    if s = "" then Except.ok 0
    else
      match pythonInt s with
      | some n => Except.ok n
      | none => Except.error ("invalid literal for int() with base 10: \x27" ++ s ++ "\x27")

/-- The dictionary comprehension of `get_all`:
`{key: int(redis_client.get(key) or 0) for key in keys}`, evaluated left to
right and raising at the first unparsable value. -/
def buildCounts (conn : Conn) : List String → Except String (List (String × Int))
  | [] => Except.ok []
  | key :: rest =>
    match Conn.get conn key with
    | Except.error e => Except.error e
    | Except.ok v =>
      match intOfGet v with
      | Except.error e => Except.error e
      | Except.ok n =>
        match buildCounts conn rest with
        | Except.error e => Except.error e
        | Except.ok tail => Except.ok ((key, n) :: tail)

/-- The `/list` route (`get_all` in `src/app.py`): enumerate all keys,
fetch and parse each value, and answer 200 with `{data, version}`; any
exception is caught and answered as 500 `{error: str(error_detail)}`. -/
def get_all (cfg : Config) (conn : Conn) : ListResult :=
  match Conn.keysAll conn with
  | Except.error e => { httpStatus := 500, body := ListBody.failure e, conn := conn }
  | Except.ok keyList =>
    match buildCounts conn keyList with
    | Except.error e => { httpStatus := 500, body := ListBody.failure e, conn := conn }
    | Except.ok d => { httpStatus := 200, body := ListBody.payload d cfg.appVersion, conn := conn }

/-- The f-string HTML template of the root route, up to the version tag in
the `<title>`. -/
def htmlPart1 : String := "
    <!DOCTYPE html>
    <html>
    <head>
        <title>DevOps 投票中心 - "

/-- The template between the `<title>` version tag and the version tag in
the `<h1>` heading. -/
def htmlPart2 : String := "</title>
        <meta charset=\"utf-8\">
        <style>
            body \x7b font-family: \x27Microsoft JhengHei\x27, sans-serif; text-align: center; padding: 50px; background-color: #f4f4f9; \x7d
            .container \x7b background: white; max-width: 600px; margin: auto; padding: 30px; border-radius: 15px; box-shadow: 0 4px 8px rgba(0,0,0,0.1); \x7d
            h1 \x7b color: #333; \x7d
            .info \x7b color: #777; font-size: 14px; margin-bottom: 30px; \x7d
            .btn \x7b padding: 15px 30px; font-size: 22px; margin: 10px; cursor: pointer; border: none; border-radius: 50px; transition: transform 0.2s; \x7d
            .btn:active \x7b transform: scale(0.95); \x7d
            .apple \x7b background-color: #ff4d4d; color: white; \x7d
            .banana \x7b background-color: #ffd700; color: black; \x7d
            .stat \x7b font-size: 28px; margin-top: 30px; font-weight: bold; \x7d
            .count \x7b color: #007bff; \x7d
        </style>
    </head>
    <body>
        <div class=\"container\">
            <h1>🏆 水果人氣投票 ("

/-- The template between the `<h1>` version tag and the store endpoint in
the info line. -/
def htmlPart3 : String := ")</h1>
            <p class=\"info\">後端資料庫: "

/-- The template between the store endpoint and the pod identifier. -/
def htmlPart4 : String := " | Pod ID: "

/-- The tail of the template: buttons, counters, and the client-side
script calling `/vote/<item>` and `/list`. -/
def htmlPart5 : String := "</p>

            <div id=\"buttons\">
                <button class=\"btn apple\" onclick=\"vote(\x27apple\x27)\">🍎 投給 Apple</button>
                <button class=\"btn banana\" onclick=\"vote(\x27banana\x27)\">🍌 投給 Banana</button>
            </div>

            <div class=\"stat\">
                <p>🍎 Apple 得票: <span id=\"apple-count\" class=\"count\">...</span></p>
                <p>🍌 Banana 得票: <span id=\"banana-count\" class=\"count\">...</span></p>
            </div>
        </div>

        <script>
            // 頁面載入後自動更新票數
            window.onload = updateCounts;

            // [AJAX 投票] 發送請求到後端 API，取得最新票數並更新網頁數字
            function vote(item) \x7b
                fetch(\x27/vote/\x27 + item)
                    .then(res => res.json())
                    .then(data => \x7b
                        document.getElementById(item + \x27-count\x27).innerText = data.current_count;
                    \x7d);
            \x7d

            // [更新票數] 從 /list API 拿回所有水果的統計數字
            function updateCounts() \x7b
                fetch(\x27/list\x27)
                    .then(res => res.json())
                    .then(data => \x7b
                        document.getElementById(\x27apple-count\x27).innerText = data.data[\x27apple\x27] || 0;
                        document.getElementById(\x27banana-count\x27).innerText = data.data[\x27banana\x27] || 0;
                    \x7d);
            \x7d
        </script>
    </body>
    </html>
    "

/-- The rendered `html_content` of the root route: the template with the
version tag interpolated twice, then the store endpoint address, then the
pod hostname. -/
def html_content (cfg : Config) : String :=
  htmlPart1 ++ (cfg.appVersion ++ (htmlPart2 ++ (cfg.appVersion ++
    (htmlPart3 ++ (cfg.redisHost ++ (htmlPart4 ++ (cfg.hostname ++ htmlPart5)))))))

/-- The `/` route (`hello` in `src/app.py`): renders the templated page;
it performs no store or notifier call, so the connection is returned
untouched. -/
def hello (cfg : Config) (conn : Conn) : (Nat × String) × Conn :=
  ((200, html_content cfg), conn)

/-- Value of a counter in the data model: an absent key is treated as 0,
a present value reads as its decimal integer. -/
def counterVal (st : Store) (key : String) : Int :=
  match Store.lookup st key with
  | none => 0
  | some v => (parseDecimal v).getD 0

/-- The counter named `key` is absent or holds a decimal-integer string,
so that `incr` succeeds on it. -/
def parsableAt (st : Store) (key : String) : Bool :=
  match Store.lookup st key with
  | none => true
  | some v => (parseDecimal v).isSome

/-- A stored value is well-formed when it is the canonical decimal
representation of a non-negative integer. -/
def wellFormedVal (v : String) : Bool :=
  match parseDecimal v with
  | some n => decide (0 ≤ n) && decide (v = renderInt n)
  | none => false

/-- Every value in the store is well-formed: the inductive invariant of
the counter data model. -/
def validStore (st : Store) : Bool :=
  st.all fun kv => wellFormedVal kv.2

/-- A concrete configuration: the environment defaults of `src/app.py`
(no Telegram credentials configured). -/
def cfgDefault : Config :=
  { appVersion := "v1", telegramToken := "", telegramChatId := ""
    redisHost := "localhost", hostname := "local" }

/-- A concrete configuration with Telegram credentials present. -/
def cfgNotify : Config :=
  { appVersion := "v2", telegramToken := "tok", telegramChatId := "42"
    redisHost := "redis-service", hostname := "pod-1" }

/-- The integer the `/list` route computes for `key`:
`int(redis_client.get(key) or 0)` on the success path. -/
def pyValue (st : Store) (key : String) : Int :=
  match Store.lookup st key with
  | none => 0
  | some v => if v = "" then 0 else (pythonInt v).getD 0

/-- Every stored value is empty or parses as a Python integer literal, so
the `/list` dictionary comprehension raises no `ValueError`. -/
def listParsable (st : Store) : Bool :=
  st.all fun kv => kv.2 = "" || (pythonInt kv.2).isSome

theorem digitVal_digitChar : ∀ d : Nat, d < 10 → digitVal (Nat.digitChar d) = d := by decide

theorem isDigit_digitChar : ∀ d : Nat, d < 10 → (Nat.digitChar d).isDigit = true := by decide

theorem natDigitsRevAux_val : ∀ fuel n, n ≤ fuel → valOfDigitsRev (natDigitsRevAux fuel n) = n := by
  intro fuel
  induction fuel with
  | zero =>
    intro n h
    have : n = 0 := Nat.le_zero.mp h
    subst this
    rfl
  | succ fuel ih =>
    intro n h
    match n with
    | 0 => rfl
    | m + 1 =>
      have hdiv : (m + 1) / 10 ≤ fuel := by
        have : (m + 1) / 10 < m + 1 := Nat.div_lt_self (Nat.succ_pos m) (by norm_num)
        omega
      show valOfDigitsRev (((m + 1) % 10) :: natDigitsRevAux fuel ((m + 1) / 10)) = m + 1
      rw [valOfDigitsRev, ih _ hdiv]
      exact Nat.mod_add_div (m + 1) 10

theorem natDigitsRevAux_mem_lt : ∀ fuel n d, d ∈ natDigitsRevAux fuel n → d < 10 := by
  intro fuel
  induction fuel with
  | zero =>
    intro n d h
    cases n <;> simp [natDigitsRevAux] at h
  | succ fuel ih =>
    intro n d h
    cases n with
    | zero => simp [natDigitsRevAux] at h
    | succ m =>
      rw [natDigitsRevAux] at h
      rcases List.mem_cons.mp h with h1 | h2
      · subst h1; exact Nat.mod_lt _ (by norm_num)
      · exact ih _ _ h2

theorem parseDigitsList_map_digitChar (L : List Nat) (hne : L ≠ []) (hlt : ∀ d ∈ L, d < 10) :
    parseDigitsList ((L.map Nat.digitChar).reverse) = some (valOfDigitsRev L) := by
  have h1 : (L.map Nat.digitChar).reverse ≠ [] := by simpa using hne
  have h2 : ((L.map Nat.digitChar).reverse).all Char.isDigit = true := by
    rw [List.all_eq_true]
    intro c hc
    rw [List.mem_reverse] at hc
    rcases List.mem_map.mp hc with ⟨d, hd, rfl⟩
    exact isDigit_digitChar d (hlt d hd)
  rw [parseDigitsList, if_neg h1, if_pos h2]
  congr 1
  rw [List.map_reverse, List.reverse_reverse, List.map_map]
  have : L.map (digitVal ∘ Nat.digitChar) = L.map id := by
    apply List.map_congr_left
    intro d hd
    exact digitVal_digitChar d (hlt d hd)
  rw [this, List.map_id]

theorem renderNat_data_digits (n : Nat) :
    (renderNat n).data ≠ [] ∧ ((renderNat n).data).all Char.isDigit = true ∧
      parseDigitsList (renderNat n).data = some n := by
  rcases Nat.eq_zero_or_pos n with rfl | hpos
  · refine ⟨by decide, by decide, by decide⟩
  · obtain ⟨m, rfl⟩ : ∃ m, n = m + 1 := ⟨n - 1, by omega⟩
    have hne : natDigitsRevAux (m + 1) (m + 1) ≠ [] := by
      rw [natDigitsRevAux]; exact List.cons_ne_nil _ _
    have hlt : ∀ d ∈ natDigitsRevAux (m + 1) (m + 1), d < 10 :=
      fun d hd => natDigitsRevAux_mem_lt _ _ d hd
    have hval : valOfDigitsRev (natDigitsRevAux (m + 1) (m + 1)) = m + 1 :=
      natDigitsRevAux_val _ _ le_rfl
    have hdata : (renderNat (m + 1)).data
        = ((natDigitsRevAux (m + 1) (m + 1)).map Nat.digitChar).reverse := by
      rw [renderNat, if_neg (Nat.succ_ne_zero m)]
    refine ⟨?_, ?_, ?_⟩
    · rw [hdata]; simpa using hne
    · rw [hdata, List.all_eq_true]
      intro c hc
      rw [List.mem_reverse] at hc
      rcases List.mem_map.mp hc with ⟨d, hd, rfl⟩
      exact isDigit_digitChar d (hlt d hd)
    · rw [hdata, parseDigitsList_map_digitChar _ hne hlt, hval]

theorem isDigit_ne_dash {c : Char} (h : c.isDigit = true) : c ≠ '-' := by
  intro hc
  rw [hc] at h
  exact absurd h (by decide)

theorem parseDecimal_of_digits {l : List Char} (hne : l ≠ [])
    (hdig : l.all Char.isDigit = true) :
    parseDecimal (String.mk l) = (parseDigitsList l).map fun d => (d : Int) := by
  rcases l with _ | ⟨c, rest⟩
  · exact absurd rfl hne
  · have hcd : c.isDigit = true := by
      simp only [List.all_cons, Bool.and_eq_true] at hdig
      exact hdig.1
    simp only [parseDecimal, String.data]
    rw [if_neg (isDigit_ne_dash hcd)]

theorem parse_renderNat (n : Nat) : parseDecimal (renderNat n) = some (n : Int) := by
  obtain ⟨hne, hdig, hparse⟩ := renderNat_data_digits n
  have : renderNat n = String.mk (renderNat n).data := rfl
  rw [this, parseDecimal_of_digits hne hdig, hparse]
  rfl

theorem parse_renderInt (i : Int) : parseDecimal (renderInt i) = some i := by
  rw [renderInt]
  by_cases h : i < 0
  · rw [if_pos h]
    obtain ⟨hne, hdig, hparse⟩ := renderNat_data_digits i.natAbs
    have hdata : ("-" ++ renderNat i.natAbs).data = '-' :: (renderNat i.natAbs).data := by
      simp [String.data_append]
    simp only [parseDecimal, hdata]
    rw [if_pos trivial, hparse]
    have habs : -((i.natAbs : Nat) : Int) = i := by omega
    show some (-((i.natAbs : Nat) : Int)) = some i
    rw [habs]
  · rw [if_neg h]
    rw [parse_renderNat]
    congr 1
    omega

theorem Store.lookup_set_self (st : Store) (k v : String) :
    Store.lookup (Store.set st k v) k = some v := by
  induction st with
  | nil => simp [Store.set, Store.lookup]
  | cons kv rest ih =>
    rcases kv with ⟨k1, v1⟩
    by_cases h : k1 = k
    · subst h; simp [Store.set, Store.lookup]
    · simp [Store.set, Store.lookup, h, ih]

theorem Store.lookup_set_ne (st : Store) (k v key : String) (h : key ≠ k) :
    Store.lookup (Store.set st k v) key = Store.lookup st key := by
  induction st with
  | nil =>
    have : ¬ (k = key) := fun hh => h hh.symm
    simp [Store.set, Store.lookup, this]
  | cons kv rest ih =>
    rcases kv with ⟨k1, v1⟩
    by_cases hk : k1 = k
    · subst hk
      have : ¬ (k1 = key) := fun hh => h (hh.symm ▸ rfl)
      simp [Store.set, Store.lookup, this]
    · by_cases hkey : k1 = key
      · subst hkey; simp [Store.set, Store.lookup, hk]
      · simp [Store.set, Store.lookup, hk, hkey, ih]

theorem Store.mem_set (st : Store) (k v : String) (kv : String × String)
    (h : kv ∈ Store.set st k v) : kv ∈ st ∨ kv.2 = v := by
  induction st with
  | nil =>
    simp [Store.set] at h
    subst h; right; rfl
  | cons hd rest ih =>
    rcases hd with ⟨k1, v1⟩
    by_cases hk : k1 = k
    · subst hk
      simp [Store.set] at h
      rcases h with h | h
      · subst h; right; rfl
      · left; exact List.mem_cons_of_mem _ h
    · simp [Store.set, hk] at h
      rcases h with h | h
      · subst h; left; exact List.mem_cons_self _ _
      · rcases ih h with h2 | h2
        · left; exact List.mem_cons_of_mem _ h2
        · right; exact h2

theorem Store.lookup_mem {st : Store} {k v : String}
    (h : Store.lookup st k = some v) : (k, v) ∈ st := by
  induction st with
  | nil => simp [Store.lookup] at h
  | cons hd rest ih =>
    rcases hd with ⟨k1, v1⟩
    by_cases hk : k1 = k
    · subst hk
      simp [Store.lookup] at h
      subst h
      exact List.mem_cons_self _ _
    · simp [Store.lookup, hk] at h
      exact List.mem_cons_of_mem _ (ih h)

theorem Store.lookup_isSome_of_mem_keysAll (st : Store) (k : String)
    (h : k ∈ Store.keysAll st) : (Store.lookup st k).isSome = true := by
  induction st with
  | nil => simp [Store.keysAll] at h
  | cons hd rest ih =>
    rcases hd with ⟨k1, v1⟩
    by_cases hk : k1 = k
    · simp [Store.lookup, hk]
    · simp [Store.keysAll] at h
      rcases h with h | h
      · exact absurd h.symm hk
      · simpa [Store.lookup, hk] using ih (by simpa [Store.keysAll] using h)

theorem wellFormedVal_spec {v : String} (h : wellFormedVal v = true) :
    ∃ n : Int, parseDecimal v = some n ∧ 0 ≤ n ∧ v = renderInt n := by
  unfold wellFormedVal at h
  cases hp : parseDecimal v with
  | none => rw [hp] at h; exact absurd h (by simp)
  | some n =>
    rw [hp] at h
    simp only [Bool.and_eq_true, decide_eq_true_eq] at h
    exact ⟨n, rfl, h.1, h.2⟩

theorem wellFormedVal_renderInt (n : Int) (h : 0 ≤ n) :
    wellFormedVal (renderInt n) = true := by
  unfold wellFormedVal
  rw [parse_renderInt]
  simp [h]

theorem parsableAt_of_valid {st : Store} (h : validStore st = true) (k : String) :
    parsableAt st k = true := by
  unfold parsableAt
  cases hl : Store.lookup st k with
  | none => rfl
  | some v =>
    have hmem : (k, v) ∈ st := Store.lookup_mem hl
    have hwf : wellFormedVal v = true := by
      rw [validStore, List.all_eq_true] at h
      exact h _ hmem
    obtain ⟨n, hn, _, _⟩ := wellFormedVal_spec hwf
    simp [hn]

theorem counterVal_nonneg_of_valid {st : Store} (h : validStore st = true) (k : String) :
    0 ≤ counterVal st k := by
  unfold counterVal
  cases hl : Store.lookup st k with
  | none => exact le_refl 0
  | some v =>
    have hmem : (k, v) ∈ st := Store.lookup_mem hl
    have hwf : wellFormedVal v = true := by
      rw [validStore, List.all_eq_true] at h
      exact h _ hmem
    obtain ⟨n, hn, hn0, _⟩ := wellFormedVal_spec hwf
    simp [hn, hn0]

theorem vote_item_up (cfg : Config) (o : NetOutcome) (st : Store) (p : String)
    (h : parsableAt st p = true) :
    vote_item cfg o (Conn.up st) p =
      { httpStatus := 200
        body := VoteBody.success "success" (counterVal st p + 1) cfg.appVersion
        conn := Conn.up (Store.set st p (renderInt (counterVal st p + 1)))
        message := some (vote_message p (counterVal st p + 1))
        notified := send_telegram_notification cfg o (vote_message p (counterVal st p + 1)) } := by
  cases hl : Store.lookup st p with
  | none =>
    have hc : counterVal st p = 0 := by simp [counterVal, hl]
    simp [vote_item, Conn.incr, Store.incr, hl, hc]
  | some v =>
    have hv : (parseDecimal v).isSome = true := by simpa [parsableAt, hl] using h
    obtain ⟨n, hn⟩ := Option.isSome_iff_exists.mp hv
    have hc : counterVal st p = n := by simp [counterVal, hl, hn]
    simp [vote_item, Conn.incr, Store.incr, hl, hn, hc]

theorem counterVal_set_render (st : Store) (p : String) (m : Int) :
    counterVal (Store.set st p (renderInt m)) p = m := by
  simp [counterVal, Store.lookup_set_self, parse_renderInt]

theorem parsableAt_set_render (st : Store) (p : String) (m : Int) :
    parsableAt (Store.set st p (renderInt m)) p = true := by
  simp [parsableAt, Store.lookup_set_self, parse_renderInt]

theorem send_telegram_text (cfg : Config) (o : NetOutcome) (message : String)
    (pl : TelegramPayload) (h : send_telegram_notification cfg o message = some pl) :
    pl = { chat_id := cfg.telegramChatId, text := "[" ++ cfg.appVersion ++ "] " ++ message } := by
  unfold send_telegram_notification at h
  by_cases hc : cfg.telegramToken ≠ "" ∧ cfg.telegramChatId ≠ ""
  · rw [if_pos hc] at h
    cases o with
    | delivered n => exact (Option.some.inj h).symm
    | netError e => exact (Option.some.inj h).symm
    | timedOut => exact (Option.some.inj h).symm
  · rw [if_neg hc] at h
    exact absurd h (by simp)

/-- Claim C1, counterexample: on an empty store the first of two sequential
votes for `apple` returns `current_count = 1`, not the pre-vote value `0`
the claim asserts, so "yields counts `n` then `n+1` where `n` was the
pre-vote value" is false at this input. -/
theorem C1_counterexample :
    ¬ ((vote_item cfgDefault NetOutcome.timedOut (Conn.up []) "apple").body
        = VoteBody.success "success" (counterVal [] "apple") cfgDefault.appVersion) := by
  decide

/-- Claim C1 (amended): for every valid product name `p` whose counter is
absent or holds a decimal-integer value, calling the vote operation twice
in sequence yields counts `n+1` then `n+2`, where `n` was the value of
`p`'s counter before the first vote. -/
theorem C1_vote_twice (cfg : Config) (o1 o2 : NetOutcome) (st : Store) (p : String)
    (h : parsableAt st p = true) :
    (vote_item cfg o1 (Conn.up st) p).body
        = VoteBody.success "success" (counterVal st p + 1) cfg.appVersion ∧
    (vote_item cfg o2 (vote_item cfg o1 (Conn.up st) p).conn p).body
        = VoteBody.success "success" (counterVal st p + 2) cfg.appVersion := by
  have h1 := vote_item_up cfg o1 st p h
  have hp2 : parsableAt (Store.set st p (renderInt (counterVal st p + 1))) p = true :=
    parsableAt_set_render st p _
  have h2 := vote_item_up cfg o2 (Store.set st p (renderInt (counterVal st p + 1))) p hp2
  have hcv : counterVal (Store.set st p (renderInt (counterVal st p + 1))) p
      = counterVal st p + 1 := counterVal_set_render st p _
  refine ⟨by rw [h1], ?_⟩
  rw [h1]
  show (vote_item cfg o2 (Conn.up (Store.set st p (renderInt (counterVal st p + 1)))) p).body
      = VoteBody.success "success" (counterVal st p + 2) cfg.appVersion
  rw [h2, hcv]
  have : counterVal st p + 1 + 1 = counterVal st p + 2 := by ring
  rw [this]

/-- Witness for C1 at the empty store and product `apple`: the two votes
return counts 1 and 2. -/
theorem C1_witness :
    (vote_item cfgDefault NetOutcome.timedOut (Conn.up []) "apple").body
        = VoteBody.success "success" (counterVal [] "apple" + 1) cfgDefault.appVersion ∧
    (vote_item cfgDefault NetOutcome.timedOut
        (vote_item cfgDefault NetOutcome.timedOut (Conn.up []) "apple").conn "apple").body
        = VoteBody.success "success" (counterVal [] "apple" + 2) cfgDefault.appVersion :=
  C1_vote_twice cfgDefault NetOutcome.timedOut NetOutcome.timedOut [] "apple" (by decide)

/-- Claim C2: voting for a key absent from the store creates the counter
(absent value treated as 0), adds 1, and returns the new value 1 as
`current_count`, with HTTP status 200. -/
theorem C2_first_vote (cfg : Config) (o : NetOutcome) (st : Store) (p : String)
    (h : Store.lookup st p = none) :
    (vote_item cfg o (Conn.up st) p).httpStatus = 200 ∧
    (vote_item cfg o (Conn.up st) p).body = VoteBody.success "success" 1 cfg.appVersion ∧
    (vote_item cfg o (Conn.up st) p).conn = Conn.up (Store.set st p (renderInt 1)) ∧
    counterVal (Store.set st p (renderInt 1)) p = 1 := by
  have hp : parsableAt st p = true := by simp [parsableAt, h]
  have hc : counterVal st p = 0 := by simp [counterVal, h]
  have h1 := vote_item_up cfg o st p hp
  rw [hc] at h1
  norm_num at h1
  rw [h1]
  refine ⟨rfl, rfl, rfl, ?_⟩
  have := counterVal_set_render st p 1
  simpa using this

/-- Witness for C2: voting for `banana` on a store holding only `apple`. -/
theorem C2_witness :
    (vote_item cfgDefault (NetOutcome.delivered 200) (Conn.up [("apple", "3")]) "banana").httpStatus = 200 ∧
    (vote_item cfgDefault (NetOutcome.delivered 200) (Conn.up [("apple", "3")]) "banana").body
        = VoteBody.success "success" 1 cfgDefault.appVersion ∧
    (vote_item cfgDefault (NetOutcome.delivered 200) (Conn.up [("apple", "3")]) "banana").conn
        = Conn.up (Store.set [("apple", "3")] "banana" (renderInt 1)) ∧
    counterVal (Store.set [("apple", "3")] "banana" (renderInt 1)) "banana" = 1 :=
  C2_first_vote cfgDefault (NetOutcome.delivered 200) [("apple", "3")] "banana" (by decide)

theorem buildCounts_ok (st : Store) (h : listParsable st = true) :
    ∀ keys : List String,
      buildCounts (Conn.up st) keys = Except.ok (keys.map fun k => (k, pyValue st k)) := by
  intro keys
  induction keys with
  | nil => rfl
  | cons k rest ih =>
    cases hl : Store.lookup st k with
    | none => simp [buildCounts, Conn.get, hl, intOfGet, pyValue, ih]
    | some v =>
      have hmem : (k, v) ∈ st := Store.lookup_mem hl
      have hv : v = "" ∨ (pythonInt v).isSome = true := by
        rw [listParsable, List.all_eq_true] at h
        have := h _ hmem
        simpa using this
      rcases hv with rfl | hv
      · simp [buildCounts, Conn.get, hl, intOfGet, pyValue, ih]
      · obtain ⟨n, hn⟩ := Option.isSome_iff_exists.mp hv
        by_cases hempty : v = ""
        · subst hempty
          simp [buildCounts, Conn.get, hl, intOfGet, pyValue, ih]
        · simp [buildCounts, Conn.get, hl, intOfGet, pyValue, ih, hn, hempty]

/-- Claim C3, counterexample: on a store where `banana` holds the
unparsable value `"abc"`, the `/list` route returns a 500 error (Python
`int` raises `ValueError`), not a 200 response mapping `banana` to 0 as
the claim's "missing or unparsable values treated as 0" asserts. -/
theorem C3_counterexample :
    (get_all cfgDefault (Conn.up [("banana", "abc")])).httpStatus = 500 ∧
    (get_all cfgDefault (Conn.up [("banana", "abc")])).body
        ≠ ListBody.payload [("banana", 0)] cfgDefault.appVersion := by
  decide

/-- Claim C3 (amended): for every store state whose values are all empty
or parsable integer literals, the list operation enumerates all keys,
fetches each value, and returns a 200 response whose data field maps each
key to its integer value (missing or empty values treated as 0), with the
version tag; a non-empty unparsable value makes the route return a 500
error response instead. -/
theorem C3_list_all (cfg : Config) (st : Store) (h : listParsable st = true) :
    (get_all cfg (Conn.up st)).httpStatus = 200 ∧
    (get_all cfg (Conn.up st)).body
        = ListBody.payload ((Store.keysAll st).map fun k => (k, pyValue st k)) cfg.appVersion ∧
    (get_all cfg (Conn.up st)).conn = Conn.up st := by
  have hb := buildCounts_ok st h (Store.keysAll st)
  refine ⟨?_, ?_, ?_⟩ <;> simp [get_all, Conn.keysAll, hb]

/-- Witness for C3 on the store `apple ↦ "2", pear ↦ ""`: the listing maps
`apple` to 2 and the empty value of `pear` to 0. -/
theorem C3_witness :
    (get_all cfgDefault (Conn.up [("apple", "2"), ("pear", "")])).httpStatus = 200 ∧
    (get_all cfgDefault (Conn.up [("apple", "2"), ("pear", "")])).body
        = ListBody.payload
            ((Store.keysAll [("apple", "2"), ("pear", "")]).map
              fun k => (k, pyValue [("apple", "2"), ("pear", "")] k))
            cfgDefault.appVersion ∧
    (get_all cfgDefault (Conn.up [("apple", "2"), ("pear", "")])).conn
        = Conn.up [("apple", "2"), ("pear", "")] :=
  C3_list_all cfgDefault [("apple", "2"), ("pear", "")] (by decide)

/-- Claim C4: when the store operation raises during `/vote` or `/list`,
the route returns status 500 with the error's textual description in the
`error` field (non-empty whenever the description is), the handler is a
total function (the process does not terminate), and a subsequent request
on a recovered connection is served normally. -/
theorem C4_store_error (cfg : Config) (o : NetOutcome) (e : String) (st : Store) (p : String)
    (he : e ≠ "") (hp : parsableAt st p = true) :
    (vote_item cfg o (Conn.down e) p).httpStatus = 500 ∧
    (vote_item cfg o (Conn.down e) p).body = VoteBody.failure e ∧
    (get_all cfg (Conn.down e)).httpStatus = 500 ∧
    (get_all cfg (Conn.down e)).body = ListBody.failure e ∧
    e ≠ "" ∧
    (vote_item cfg o (Conn.up st) p).httpStatus = 200 := by
  refine ⟨rfl, rfl, rfl, rfl, he, ?_⟩
  rw [vote_item_up cfg o st p hp]

/-- Witness for C4 with a concrete connection-refused error. -/
theorem C4_witness :
    (vote_item cfgDefault NetOutcome.timedOut
        (Conn.down "Error 111 connecting to localhost:6379. Connection refused.") "apple").httpStatus = 500 ∧
    (vote_item cfgDefault NetOutcome.timedOut
        (Conn.down "Error 111 connecting to localhost:6379. Connection refused.") "apple").body
        = VoteBody.failure "Error 111 connecting to localhost:6379. Connection refused." ∧
    (get_all cfgDefault
        (Conn.down "Error 111 connecting to localhost:6379. Connection refused.")).httpStatus = 500 ∧
    (get_all cfgDefault
        (Conn.down "Error 111 connecting to localhost:6379. Connection refused.")).body
        = ListBody.failure "Error 111 connecting to localhost:6379. Connection refused." ∧
    "Error 111 connecting to localhost:6379. Connection refused." ≠ "" ∧
    (vote_item cfgDefault NetOutcome.timedOut (Conn.up []) "apple").httpStatus = 200 :=
  C4_store_error cfgDefault NetOutcome.timedOut
    "Error 111 connecting to localhost:6379. Connection refused." [] "apple"
    (by decide) (by decide)

/-- Claim C5: the notifier's observable behavior is identical under every
delivery outcome (network error, timeout, any response status) — the
`try/except: pass` swallows every failure; with the endpoint credential or
destination id absent it attempts nothing; and a vote on the store still
succeeds with the correct incremented count in all cases. -/
theorem C5_notifier_best_effort (cfg : Config) (o o2 : NetOutcome) (st : Store) (p : String)
    (msg : String) (hp : parsableAt st p = true) :
    send_telegram_notification cfg o msg = send_telegram_notification cfg o2 msg ∧
    (cfg.telegramToken = "" ∨ cfg.telegramChatId = "" →
        send_telegram_notification cfg o msg = none) ∧
    (vote_item cfg o (Conn.up st) p).httpStatus = 200 ∧
    (vote_item cfg o (Conn.up st) p).body
        = VoteBody.success "success" (counterVal st p + 1) cfg.appVersion := by
  refine ⟨?_, ?_, ?_, ?_⟩
  · unfold send_telegram_notification
    by_cases hc : cfg.telegramToken ≠ "" ∧ cfg.telegramChatId ≠ ""
    · rw [if_pos hc, if_pos hc]
      cases o <;> cases o2 <;> rfl
    · rw [if_neg hc, if_neg hc]
  · intro hmiss
    unfold send_telegram_notification
    have hneg : ¬ (cfg.telegramToken ≠ "" ∧ cfg.telegramChatId ≠ "") := by
      rcases hmiss with h | h <;> simp [h]
    rw [if_neg hneg]
  · rw [vote_item_up cfg o st p hp]
  · rw [vote_item_up cfg o st p hp]

/-- Witness for C5: no credentials configured, a timed-out delivery, and a
vote for `apple` at count 1. -/
theorem C5_witness :
    send_telegram_notification cfgDefault NetOutcome.timedOut "m"
        = send_telegram_notification cfgDefault (NetOutcome.delivered 500) "m" ∧
    (cfgDefault.telegramToken = "" ∨ cfgDefault.telegramChatId = "" →
        send_telegram_notification cfgDefault NetOutcome.timedOut "m" = none) ∧
    (vote_item cfgDefault NetOutcome.timedOut (Conn.up [("apple", "1")]) "apple").httpStatus = 200 ∧
    (vote_item cfgDefault NetOutcome.timedOut (Conn.up [("apple", "1")]) "apple").body
        = VoteBody.success "success" (counterVal [("apple", "1")] "apple" + 1) cfgDefault.appVersion :=
  C5_notifier_best_effort cfgDefault NetOutcome.timedOut (NetOutcome.delivered 500)
    [("apple", "1")] "apple" "m" (by decide)

/-- Claim C6: every message the notifier sends is delivered as the input
message prefixed with the process's version tag enclosed in brackets. -/
theorem C6_bracketed_version (cfg : Config) (o : NetOutcome) (message : String)
    (pl : TelegramPayload) (h : send_telegram_notification cfg o message = some pl) :
    pl.text = "[" ++ cfg.appVersion ++ "] " ++ message := by
  rw [send_telegram_text cfg o message pl h]

/-- Witness for C6 with credentials configured and message `hi`. -/
theorem C6_witness :
    ({ chat_id := "42", text := "[v2] hi" } : TelegramPayload).text
        = "[" ++ cfgNotify.appVersion ++ "] " ++ "hi" :=
  C6_bracketed_version cfgNotify (NetOutcome.delivered 404) "hi"
    { chat_id := "42", text := "[v2] hi" } (by decide)

theorem string_append_assoc (a b c : String) : a ++ b ++ c = a ++ (b ++ c) := by
  apply String.ext
  simp [String.data_append, List.append_assoc]

/-- Claim C7: for every configuration, the root page response contains the
configured version tag string and the configured store-endpoint string
verbatim in its HTML body. -/
theorem C7_root_verbatim (cfg : Config) (conn : Conn) :
    (hello cfg conn).1.2 = html_content cfg ∧
    (∃ a b : String, html_content cfg = a ++ (cfg.appVersion ++ b)) ∧
    (∃ a b : String, html_content cfg = a ++ (cfg.redisHost ++ b)) := by
  refine ⟨rfl, ⟨htmlPart1, htmlPart2 ++ (cfg.appVersion ++ (htmlPart3 ++ (cfg.redisHost ++
      (htmlPart4 ++ (cfg.hostname ++ htmlPart5))))), rfl⟩,
    ⟨htmlPart1 ++ (cfg.appVersion ++ (htmlPart2 ++ (cfg.appVersion ++ htmlPart3))),
      htmlPart4 ++ (cfg.hostname ++ htmlPart5), ?_⟩⟩
  rw [html_content]
  simp [string_append_assoc]

/-- Claim C8: the root route performs no backend call: for every store
state, including an unreachable store, it returns status 200 with the
rendered page and leaves the connection (hence the store state) unchanged. -/
theorem C8_root_no_backend (cfg : Config) (conn : Conn) :
    hello cfg conn = ((200, html_content cfg), conn) := rfl

/-- Claim C9: on a well-formed store every counter value is non-negative;
a vote leaves the store well-formed, never decreases any counter, never
deletes a key, and mutates no key other than the voted one; the list and
root operations leave the store unchanged. -/
theorem C9_counter_invariant (cfg : Config) (o : NetOutcome) (st : Store) (p : String)
    (h : validStore st = true) :
    (∀ k, 0 ≤ counterVal st k) ∧
    (∀ st2, (vote_item cfg o (Conn.up st) p).conn = Conn.up st2 →
        validStore st2 = true ∧
        (∀ k, counterVal st k ≤ counterVal st2 k) ∧
        (∀ k, (Store.lookup st k).isSome = true → (Store.lookup st2 k).isSome = true) ∧
        (∀ k, k ≠ p → Store.lookup st2 k = Store.lookup st k)) ∧
    (get_all cfg (Conn.up st)).conn = Conn.up st ∧
    (hello cfg (Conn.up st)).2 = Conn.up st := by
  have hp : parsableAt st p = true := parsableAt_of_valid h p
  have hnn : ∀ k, 0 ≤ counterVal st k := counterVal_nonneg_of_valid h
  refine ⟨hnn, ?_, ?_, rfl⟩
  · intro st2 heq
    rw [vote_item_up cfg o st p hp] at heq
    have hst2 : st2 = Store.set st p (renderInt (counterVal st p + 1)) :=
      (Conn.up.injEq _ _ ▸ heq).symm
    subst hst2
    refine ⟨?_, ?_, ?_, ?_⟩
    · rw [validStore, List.all_eq_true]
      intro kv hkv
      rcases Store.mem_set st p (renderInt (counterVal st p + 1)) kv hkv with hin | hval
      · rw [validStore, List.all_eq_true] at h
        exact h kv hin
      · rw [hval]
        exact wellFormedVal_renderInt _ (by have := hnn p; omega)
    · intro k
      by_cases hk : k = p
      · subst hk
        rw [counterVal_set_render]
        omega
      · have heqcv : counterVal (Store.set st p (renderInt (counterVal st p + 1))) k
            = counterVal st k := by
          unfold counterVal
          rw [Store.lookup_set_ne st p _ k hk]
        rw [heqcv]
    · intro k hk
      by_cases hkp : k = p
      · subst hkp
        rw [Store.lookup_set_self]
        rfl
      · rw [Store.lookup_set_ne st p (renderInt (counterVal st p + 1)) k hkp]
        exact hk
    · intro k hk
      exact Store.lookup_set_ne st p (renderInt (counterVal st p + 1)) k hk
  · cases hb : buildCounts (Conn.up st) (Store.keysAll st) with
    | ok d => simp [get_all, Conn.keysAll, hb]
    | error e => simp [get_all, Conn.keysAll, hb]

/-- Witness for C9 on the store `apple ↦ "1"` and a vote for `banana`. -/
theorem C9_witness :
    (∀ k, 0 ≤ counterVal [("apple", "1")] k) ∧
    (∀ st2, (vote_item cfgDefault NetOutcome.timedOut (Conn.up [("apple", "1")]) "banana").conn
        = Conn.up st2 →
        validStore st2 = true ∧
        (∀ k, counterVal [("apple", "1")] k ≤ counterVal st2 k) ∧
        (∀ k, (Store.lookup [("apple", "1")] k).isSome = true →
            (Store.lookup st2 k).isSome = true) ∧
        (∀ k, k ≠ "banana" → Store.lookup st2 k = Store.lookup [("apple", "1")] k)) ∧
    (get_all cfgDefault (Conn.up [("apple", "1")])).conn = Conn.up [("apple", "1")] ∧
    (hello cfgDefault (Conn.up [("apple", "1")])).2 = Conn.up [("apple", "1")] :=
  C9_counter_invariant cfgDefault NetOutcome.timedOut [("apple", "1")] "banana" (by decide)

/-- Claim C10: on every successful vote the count embedded in the
notification message equals the `current_count` of the JSON response, both
equal the single atomic-increment result of the request, and the store is
incremented exactly once at the voted key and nowhere else. -/
theorem C10_notification_consistency (cfg : Config) (o : NetOutcome) (st : Store) (p : String)
    (hp : parsableAt st p = true) :
    (vote_item cfg o (Conn.up st) p).body
        = VoteBody.success "success" (counterVal st p + 1) cfg.appVersion ∧
    (vote_item cfg o (Conn.up st) p).message
        = some (vote_message p (counterVal st p + 1)) ∧
    (∀ pl, (vote_item cfg o (Conn.up st) p).notified = some pl →
        pl.text = "[" ++ cfg.appVersion ++ "] " ++ vote_message p (counterVal st p + 1)) ∧
    (vote_item cfg o (Conn.up st) p).conn
        = Conn.up (Store.set st p (renderInt (counterVal st p + 1))) ∧
    counterVal (Store.set st p (renderInt (counterVal st p + 1))) p = counterVal st p + 1 ∧
    (∀ k, k ≠ p → Store.lookup (Store.set st p (renderInt (counterVal st p + 1))) k
        = Store.lookup st k) := by
  have h1 := vote_item_up cfg o st p hp
  refine ⟨by rw [h1], by rw [h1], ?_, by rw [h1], counterVal_set_render st p _, ?_⟩
  · intro pl hpl
    rw [h1] at hpl
    exact congrArg TelegramPayload.text
      (send_telegram_text cfg o (vote_message p (counterVal st p + 1)) pl hpl) ▸ rfl
  · intro k hk
    exact Store.lookup_set_ne st p (renderInt (counterVal st p + 1)) k hk

/-- Witness for C10 with credentials configured, a vote for `apple` at
count 41 going to 42. -/
theorem C10_witness :
    (vote_item cfgNotify (NetOutcome.delivered 200) (Conn.up [("apple", "41")]) "apple").body
        = VoteBody.success "success" (counterVal [("apple", "41")] "apple" + 1) cfgNotify.appVersion ∧
    (vote_item cfgNotify (NetOutcome.delivered 200) (Conn.up [("apple", "41")]) "apple").message
        = some (vote_message "apple" (counterVal [("apple", "41")] "apple" + 1)) ∧
    (∀ pl, (vote_item cfgNotify (NetOutcome.delivered 200) (Conn.up [("apple", "41")]) "apple").notified
        = some pl →
        pl.text = "[" ++ cfgNotify.appVersion ++ "] "
            ++ vote_message "apple" (counterVal [("apple", "41")] "apple" + 1)) ∧
    (vote_item cfgNotify (NetOutcome.delivered 200) (Conn.up [("apple", "41")]) "apple").conn
        = Conn.up (Store.set [("apple", "41")] "apple"
            (renderInt (counterVal [("apple", "41")] "apple" + 1))) ∧
    counterVal (Store.set [("apple", "41")] "apple"
        (renderInt (counterVal [("apple", "41")] "apple" + 1))) "apple"
        = counterVal [("apple", "41")] "apple" + 1 ∧
    (∀ k, k ≠ "apple" → Store.lookup (Store.set [("apple", "41")] "apple"
        (renderInt (counterVal [("apple", "41")] "apple" + 1))) k
        = Store.lookup [("apple", "41")] k) :=
  C10_notification_consistency cfgNotify (NetOutcome.delivered 200) [("apple", "41")] "apple"
    (by decide)
